import Mathlib

/-!
# Verification of the sandbox-engine core against its specification

A shallow embedding of the sandbox-engine repository (Go) in Lean 4.
Strings are modelled as lists of characters (Go strings are byte/char
sequences), timestamps as natural numbers, and the persistence store as
explicit record states threaded through each operation.  Every definition
is translated from the repository sources (`internal/sandbox/manager.go`,
`internal/services/registry.go` (storage part), `internal/services/postgres.go`,
`internal/api/handlers.go`, the cleanup worker, the terminal WebSocket
handler, the `ApiClient` model, and the SQL schema), except where a doc
comment says `Modelled from the spec:`.
-/

deriving instance DecidableEq for Except

namespace SandboxEngine

/-- Strings of the Go program, modelled as lists of characters. -/
abbrev Str := List Char

/-- Conversion from a Lean string literal to the model's string type. -/
def str (s : String) : Str := s.toList

/-- `models.SandboxStatus` (internal/models/sandbox.go). -/
inductive SandboxStatus
  | pending
  | running
  | stopped
  | failed
  | expired
  deriving DecidableEq, Repr

/-- `SandboxStatus.IsTerminal` (internal/models/sandbox.go):
`stopped`, `failed` and `expired` are the terminal states. -/
def SandboxStatus.isTerminal : SandboxStatus → Bool
  | .stopped => true
  | .failed => true
  | .expired => true
  | _ => false

/-- `models.SessionStatus` (session model file). -/
inductive SessionStatus
  | ready
  | provisioning
  | active
  | expired
  | failed
  deriving DecidableEq, Repr

/-- A row of the `sandboxes` table / `models.Sandbox`.  The `services`
map lives in the separate `sandbox_services` table (`SvcRow` below),
exactly as in the SQL schema; the Go struct's `Services` field is an
eagerly joined view of those rows. -/
structure Sandbox where
  id : Str
  templateId : Str
  userId : Str
  status : SandboxStatus
  statusMsg : Str
  containerId : Str
  createdAt : Nat
  startedAt : Option Nat
  expiresAt : Nat
  metadata : List (Str × Str)
  endpoints : List (Str × Str)
  deriving DecidableEq, Repr

/-- A row of the `sandbox_services` table (migration 001). -/
structure SvcRow where
  sandboxId : Str
  serviceName : Str
  serviceType : Str
  svcStatus : Str
  createdAt : Nat
  deriving DecidableEq, Repr

/-- A row of the `sessions` table / `models.Session`. -/
structure SessionRow where
  id : Str
  token : Str
  templateId : Str
  status : SessionStatus
  statusMessage : Str
  ttlSeconds : Nat
  sandboxId : Str
  createdAt : Nat
  activatedAt : Option Nat
  expiresAt : Option Nat
  deriving DecidableEq, Repr

/-- The persistence store: the authoritative mutable state
(sandbox rows, service rows, session rows). -/
structure Store where
  sandboxes : List Sandbox
  services : List SvcRow
  sessions : List SessionRow
  deriving DecidableEq, Repr

/-- Errors surfaced by the manager (`internal/sandbox/manager.go` vars). -/
inductive MErr
  | sandboxNotFound
  | templateNotFound
  | sandboxStopped
  | sessionNotFound
  | storeError
  deriving DecidableEq, Repr

/-- `PostgresRepository.GetSandbox`: `SELECT ... WHERE id = $1`,
`pgx.ErrNoRows` becomes `none`. -/
def getSandbox (st : Store) (id : Str) : Option Sandbox :=
  st.sandboxes.find? (fun r => r.id == id)

/-- `PostgresRepository.CreateSandbox`: `INSERT INTO sandboxes ...`
(primary-key conflict on `id` is an insert error). -/
def repoCreateSandbox (st : Store) (sb : Sandbox) : Except MErr Store :=
  if st.sandboxes.any (fun r => r.id == sb.id) then .error .storeError
  else .ok { st with sandboxes := sb :: st.sandboxes }

/-- The column list of `PostgresRepository.UpdateSandbox`'s `UPDATE` statement:
`SET status, status_message, container_id, started_at, expires_at, metadata,
endpoints` — `template_id`, `user_id` and `created_at` are not written. -/
def applySandboxUpdate (old incoming : Sandbox) : Sandbox :=
  { old with
    status := incoming.status
    statusMsg := incoming.statusMsg
    containerId := incoming.containerId
    startedAt := incoming.startedAt
    expiresAt := incoming.expiresAt
    metadata := incoming.metadata
    endpoints := incoming.endpoints }

/-- `PostgresRepository.UpdateSandbox`: update by `id`; zero rows affected
is an error. -/
def repoUpdateSandbox (st : Store) (sb : Sandbox) : Except MErr Store :=
  if st.sandboxes.any (fun r => r.id == sb.id) then
    .ok { st with
      sandboxes := st.sandboxes.map
        (fun r => if r.id == sb.id then applySandboxUpdate r sb else r) }
  else .error .storeError

/-- `PostgresRepository.DeleteSandbox` plus the schema's
`ON DELETE CASCADE` on `sandbox_services.sandbox_id` (migration 001):
deleting the sandbox row also deletes its service rows. -/
def repoDeleteSandbox (st : Store) (id : Str) : Except MErr Store :=
  if st.sandboxes.any (fun r => r.id == id) then
    .ok { st with
      sandboxes := st.sandboxes.filter (fun r => !(r.id == id))
      services := st.services.filter (fun r => !(r.sandboxId == id)) }
  else .error .storeError

/-- Service rows of one sandbox (`PostgresRepository.GetServices`). -/
def getServices (st : Store) (id : Str) : List SvcRow :=
  st.services.filter (fun r => r.sandboxId == id)

/-- `DockerManager.Stop` (manager.go): load the row, reject terminal states
with `ErrSandboxStopped`, best-effort container stop (runtime errors are
logged and ignored, no store effect), then persist `status = stopped`. -/
def stop (st : Store) (id : Str) : Except MErr Store :=
  match getSandbox st id with
  | none => .error .sandboxNotFound
  | some sb =>
      if sb.status.isTerminal then .error .sandboxStopped
      else repoUpdateSandbox st { sb with status := .stopped }

/-- `DockerManager.ExtendTTL` (manager.go): load the row, reject terminal
states with `ErrSandboxStopped`, then persist
`expires_at := expires_at + duration`. -/
def extendTTL (st : Store) (id : Str) (duration : Nat) : Except MErr Store :=
  match getSandbox st id with
  | none => .error .sandboxNotFound
  | some sb =>
      if sb.status.isTerminal then .error .sandboxStopped
      else repoUpdateSandbox st { sb with expiresAt := sb.expiresAt + duration }

/-- `DockerManager.updateStatus` (manager.go): re-read the row, overwrite
only `Status` and `StatusMsg` on the read copy, write it back; read and
write failures are logged and leave the store unchanged. -/
def updateStatus (st : Store) (id : Str) (status : SandboxStatus) (msg : Str) :
    Store :=
  match getSandbox st id with
  | none => st
  | some sb =>
      match repoUpdateSandbox st { sb with status := status, statusMsg := msg } with
      | .ok st' => st'
      | .error _ => st

/-- The final write of `DockerManager.provisionSandbox` on the success path
(manager.go): the in-memory sandbox `sb` held by the background task gets
`StartedAt = now`, `Status = running`, `StatusMsg = ""` and is written back
with `repo.UpdateSandbox` — without re-reading the persisted status. -/
def finishProvision (st : Store) (sb : Sandbox) (now : Nat) : Store :=
  let sb' := { sb with startedAt := some now, status := .running, statusMsg := [] }
  match repoUpdateSandbox st sb' with
  | .ok st' => st'
  | .error _ => st

/-- A template as needed by the manager (`models.Template`): default TTL
and the ordered service list. -/
structure Template where
  ttl : Nat
  services : List Str
  deriving DecidableEq, Repr

/-- `sandbox.CreateOptions` (manager.go): optional TTL override,
extra env, caller metadata. -/
structure CreateOptions where
  ttl : Option Nat
  metadata : List (Str × Str)
  deriving DecidableEq, Repr

/-- The TTL computation of `DockerManager.Create` (manager.go):
`ttl := tmpl.TTL`; if `opts.TTL != nil` it replaces the template value;
a resulting zero falls back to one hour (3600 s in this model's seconds). -/
def computeTTL (tmplTTL : Nat) (optsTTL : Option Nat) : Nat :=
  let t := match optsTTL with
    | some v => v
    | none => tmplTTL
  if t == 0 then 3600 else t

/-- The id derivation of `DockerManager.Create` (manager.go):
`uuid.New().String()[:12]` — the first 12 characters of the canonical
UUID string (which carries a hyphen at index 8). -/
def deriveSandboxId (uuidString : Str) : Str := uuidString.take 12

/-- The row assembled by `DockerManager.Create` before persisting
(manager.go): `pending`, no message, no container, empty endpoints,
`expires_at = now + ttl`. -/
def createdRow (templateID userID : Str) (id : Str) (now ttl : Nat)
    (metadata : List (Str × Str)) : Sandbox :=
  { id := id
    templateId := templateID
    userId := userID
    status := .pending
    statusMsg := []
    containerId := []
    createdAt := now
    startedAt := none
    expiresAt := now + ttl
    metadata := metadata
    endpoints := [] }

/-- `DockerManager.Create` (manager.go): template lookup failing fast with
`ErrTemplateNotFound`; id from a fresh UUID string (passed as a parameter);
TTL per `computeTTL`; a `pending` row with empty services and endpoints and
`expires_at = now + ttl` persisted; the sandbox returned at once — the
provisioning pipeline is spawned as a background task and is not part of
this function's effect. -/
def managerCreate (st : Store) (tmpl : Option Template)
    (templateID userID : Str) (uuidString : Str) (now : Nat)
    (opts : CreateOptions) : Except MErr (Sandbox × Store) :=
  match tmpl with
  | none => .error .templateNotFound
  | some t =>
      let sb := createdRow templateID userID (deriveSandboxId uuidString) now
        (computeTTL t.ttl opts.ttl) opts.metadata
      match repoCreateSandbox st sb with
      | .ok st' => .ok (sb, st')
      | .error e => .error e

/-- `DockerManager.Delete` (manager.go): load the row (error if absent);
best-effort container stop and force-remove whose failures are discarded
(`_ =` in the source — the booleans record those external failures and
have no effect); per-service `Deprovision` whose failures are logged and
skipped (the oracle records them, again with no store effect); finally
`repo.DeleteSandbox` which cascades the service rows. -/
def managerDelete (st : Store) (id : Str)
    (containerStopFailed containerRemoveFailed : Bool)
    (deprovisionFailed : Str → Bool) : Except MErr Store :=
  match getSandbox st id with
  | none => .error .sandboxNotFound
  | some _ =>
      let _ := containerStopFailed
      let _ := containerRemoveFailed
      let _ := (getServices st id).map (fun svc => deprovisionFailed svc.serviceName)
      repoDeleteSandbox st id

/-- The lowercase hex alphabet used by Go's `encoding/hex`. -/
def hexDigit (n : Nat) : Char := (str "0123456789abcdef").getD n '0'

/-- `hex.EncodeToString` on a byte slice (each byte taken mod 256, high
nibble first). -/
def hexEncode (bytes : List Nat) : Str :=
  bytes.flatMap (fun b => [hexDigit ((b % 256) / 16), hexDigit (b % 16)])

/-- `generatePassword` (internal/services/postgres.go): read `length`
random bytes; on success hex-encode and truncate to `length` characters;
on a `crypto/rand` read error fall back to the deterministic string
`"sandbox_default_pass_" + itoa(length)`.  The outcome of `rand.Read` is
the `randomBytes` parameter (`none` models the error path). -/
def generatePassword (length : Nat) (randomBytes : Option (List Nat)) : Str :=
  match randomBytes with
  | none => str "sandbox_default_pass_" ++ Nat.toDigits 10 length
  | some bs => (hexEncode bs).take length

/-- Go's `strings.HasPrefix s pre` on the model's strings. -/
def goStartsWith : Str → Str → Bool
  | _, [] => true
  | [], _ :: _ => false
  | c :: s, d :: p => (c == d) && goStartsWith s p

/-- Go's `strings.HasSuffix s suf` on the model's strings. -/
def goEndsWith (s suf : Str) : Bool := goStartsWith s.reverse suf.reverse

/-- `ApiClient.HasPermission` (ApiClient model file): the client must be
non-nil and active; then each held permission matches if it equals
`required`, or it ends in `":*"` and `required` starts with the permission
minus its trailing `"*"` (Go's `strings.TrimSuffix(perm, "*")` =
`dropLast` here), or it is the global `"*"`. -/
def hasPermission (isActive : Bool) (permissions : List Str)
    (required : Str) : Bool :=
  if !isActive then false
  else permissions.any (fun perm =>
    perm == required
      || (goEndsWith perm (str ":*") && goStartsWith required perm.dropLast)
      || perm == str "*")

/-- Stated from the spec's words (design note "Wildcard permissions":
"Match rule: exact, or `prefix + \"*\"` where `perm = prefix + \"*\"`, or
global `\"*\"`"), for comparison with `hasPermission` above. -/
def specPermissionRule (permissions : List Str) (required : Str) : Bool :=
  permissions.any (fun perm =>
    perm == required
      || (goEndsWith perm (str "*") && goStartsWith required perm.dropLast)
      || perm == str "*")

/-- The JSON frame of the terminal WebSocket (`TerminalMessage` in the
production handler). -/
structure TerminalMessage where
  msgType : Str
  data : Str
  cols : Int
  rows : Int
  deriving DecidableEq, Repr

/-- What the client-to-container pump does with one parsed frame. -/
inductive TermAction
  | writeStdin (data : Str)
  | resizeTTY (rows cols : Nat)
  | skip
  deriving DecidableEq, Repr

/-- The client-to-container dispatch of the production `handleTerminalWS`
(websocket terminal file with keepalive): `input` writes `msg.Data` to the
exec stream's stdin unmodified; `resize` calls `ExecResize(rows, cols)`
only when both `Cols > 0` and `Rows > 0`; every other type is ignored. -/
def handleClientFrame (msg : TerminalMessage) : TermAction :=
  if msg.msgType == str "input" then .writeStdin msg.data
  else if msg.msgType == str "resize" then
    if msg.cols > 0 && msg.rows > 0 then
      .resizeTTY msg.rows.toNat msg.cols.toNat
    else .skip
  else .skip

/-- The container-to-client pump of the production `handleTerminalWS`:
each chunk `buf[:n]` read from the exec stream is wrapped into
`TerminalMessage{Type: "output", Data: string(buf[:n])}`. -/
def containerChunkFrame (chunk : Str) : TerminalMessage :=
  { msgType := str "output", data := chunk, cols := 0, rows := 0 }

/-- `models.ListFilters`.  `limit` and `offset` are Go `int`s. -/
structure ListFilters where
  userId : Str
  templateId : Str
  status : Str
  limit : Int
  offset : Int
  deriving DecidableEq, Repr

/-- Status as stored in the `status` column (the `WHERE status = $n`
comparison of `ListSandboxes` is on the string value). -/
def statusText : SandboxStatus → Str
  | .pending => str "pending"
  | .running => str "running"
  | .stopped => str "stopped"
  | .failed => str "failed"
  | .expired => str "expired"

/-- The `WHERE` clauses of `PostgresRepository.ListSandboxes`: each of the
three row filters is applied only when non-empty. -/
def matchesQuery (userId templateId status : Str) (sb : Sandbox) : Bool :=
  (userId.isEmpty || sb.userId == userId)
    && (templateId.isEmpty || sb.templateId == templateId)
    && (status.isEmpty || statusText sb.status == status)

/-- `matchesQuery` applied to a `ListFilters` record (the `limit` and
`offset` fields play no role in row matching). -/
def matchesFilters (f : ListFilters) : Sandbox → Bool :=
  matchesQuery f.userId f.templateId f.status

/-- Insertion step of the `ORDER BY created_at DESC` sort. -/
def insertByCreatedDesc (sb : Sandbox) : List Sandbox → List Sandbox
  | [] => [sb]
  | x :: xs =>
      if x.createdAt ≤ sb.createdAt then sb :: x :: xs
      else x :: insertByCreatedDesc sb xs

/-- `ORDER BY created_at DESC` of `ListSandboxes`, as an insertion sort. -/
def sortByCreatedDesc (l : List Sandbox) : List Sandbox :=
  l.foldr insertByCreatedDesc []

/-- `PostgresRepository.ListSandboxes`: filter, order by `created_at DESC`,
then append `LIMIT` only when `filters.Limit > 0` and `OFFSET` only when
`filters.Offset > 0` (SQL applies `OFFSET` before `LIMIT`). -/
def listSandboxes (st : Store) (f : ListFilters) : List Sandbox :=
  let sorted := sortByCreatedDesc (st.sandboxes.filter (matchesFilters f))
  let afterOffset := if f.offset > 0 then sorted.drop f.offset.toNat else sorted
  if f.limit > 0 then afterOffset.take f.limit.toNat else afterOffset

/-- The limit parsing of `handleListSandboxes` (internal/api/handlers.go):
the default is 50 and a query value replaces it only when it parses and is
strictly positive (`none` models an absent or unparseable parameter). -/
def effectiveLimit (param : Option Int) : Int :=
  match param with
  | some l => if l > 0 then l else 50
  | none => 50

/-- The offset parsing of `handleListSandboxes`: default 0, replaced only
when the query value parses and is non-negative. -/
def effectiveOffset (param : Option Int) : Int :=
  match param with
  | some o => if o ≥ 0 then o else 0
  | none => 0

/-- `handleListSandboxes` composed with `DockerManager.List` and
`ListSandboxes`: build the filters from the query parameters and run the
store query. -/
def handleListSandboxes (st : Store) (userQ templateQ statusQ : Str)
    (limitParam offsetParam : Option Int) : List Sandbox :=
  listSandboxes st
    { userId := userQ
      templateId := templateQ
      status := statusQ
      limit := effectiveLimit limitParam
      offset := effectiveOffset offsetParam }

/-- `GetExpiredSandboxes` (storage): `status NOT IN (terminal)` and
`expires_at < NOW()` (ordering by `expires_at` is irrelevant to the
claims and omitted). -/
def expiredSandboxes (st : Store) (now : Nat) : List Sandbox :=
  st.sandboxes.filter (fun sb => !sb.status.isTerminal && sb.expiresAt < now)

/-- `GetExpiredSessions` (storage): `status = 'active'` and
`expires_at < NOW()` (a NULL `expires_at` never compares below `NOW()`). -/
def expiredSessions (st : Store) (now : Nat) : List SessionRow :=
  st.sessions.filter (fun s =>
    s.status == SessionStatus.active
      && match s.expiresAt with
         | some t => t < now
         | none => false)

/-- `Delete` attempted with its failure swallowed: the calling loops in
the cleanup worker and the session delete log a `Delete` error and keep
the store as it was. -/
def tryDelete (acc : Store) (id : Str) : Store :=
  match managerDelete acc id false false (fun _ => false) with
  | .ok st' => st'
  | .error _ => acc

/-- Modelled from the spec: the Session Manager `Delete` implementation is
not under src (only its callers — the cleanup worker and the HTTP
handlers — its models and its schema are).  Spec §4.5 `Delete`: "If
`sandbox_id` is bound, invoke Sandbox Manager `Delete(sandbox_id)` (errors
logged but not fatal) before deleting the session row." -/
def deleteSession (st : Store) (sessionId : Str) : Except MErr Store :=
  match st.sessions.find? (fun s => s.id == sessionId) with
  | none => .error .sessionNotFound
  | some s =>
      let st1 := if s.sandboxId.isEmpty then st else tryDelete st s.sandboxId
      .ok { st1 with
        sessions := st1.sessions.filter (fun r => !(r.id == sessionId)) }

/-- `DeleteSession` attempted with its failure swallowed (the cleanup
worker logs and continues). -/
def trySessionDelete (acc : Store) (sessionId : Str) : Store :=
  match deleteSession acc sessionId with
  | .ok st' => st'
  | .error _ => acc

/-- `Cleaner.cleanupSandboxes` (production cleanup worker): over the list
of expired sandboxes loaded once at the start of the cycle, call Manager
`Delete` for each and continue past failures.  `deleteFails` is an oracle
for external failures of a `Delete` call (store I/O, etc.): a failed
delete leaves the store as it was and the loop moves on. -/
def cleanupSandboxes (st : Store) (now : Nat) (deleteFails : Str → Bool) :
    Store :=
  (expiredSandboxes st now).foldl
    (fun acc sb => if deleteFails sb.id then acc else tryDelete acc sb.id)
    st

/-- `Cleaner.cleanupSessions` (production cleanup worker): over the list
of expired sessions, call Session Manager `Delete` for each, logging and
continuing on failure. -/
def cleanupSessions (st : Store) (now : Nat) (deleteFails : Str → Bool) :
    Store :=
  (expiredSessions st now).foldl
    (fun acc s => if deleteFails s.id then acc else trySessionDelete acc s.id)
    st

/-- `Cleaner.cleanup` (production cleanup worker): one reaper cycle —
expired sandboxes first, then expired sessions. -/
def cleanupCycle (st : Store) (now : Nat)
    (sandboxDeleteFails sessionDeleteFails : Str → Bool) : Store :=
  cleanupSessions (cleanupSandboxes st now sandboxDeleteFails) now
    sessionDeleteFails

/-! ## Session activation under concurrency

Modelled from the spec: the Session Manager `Activate` implementation is
not under src — only its HTTP caller `handleActivateSession`, the session
model and the sessions schema are.  Spec §4.5: `ready → provisioning` is
an atomic compare-and-set acting as the mutex; a call that loads an
`active` or `provisioning` session returns the current state as a no-op;
from `ready` the caller transitions to `provisioning`, synchronously calls
Sandbox Manager `Create`, then binds `sandbox_id` and sets `active`.
Two concurrent `Activate` calls (A and B) are modelled as processes over a
shared session/store view; a schedule decides who takes the next atomic
step. -/

/-- Program counter of one `Activate` call.  `passedCAS` holds the
provisioning lock before calling Sandbox `Create`; `createdSb` has created
the sandbox and still has to bind it; the `done*` states carry the call's
response. -/
inductive ActPC
  | atStart
  | passedCAS
  | createdSb (sbId : Nat)
  | doneWinner (sbId : Nat)
  | doneObserved (status : SessionStatus) (sbId : Option Nat)
  | doneError
  deriving DecidableEq, Repr

/-- Shared state seen by both `Activate` calls: the persisted session
status, how many sandboxes exist (fresh ids are allocated as the current
count), and the session's bound sandbox id. -/
structure ActConfig where
  sessionStatus : SessionStatus
  sandboxCount : Nat
  boundId : Option Nat
  pcA : ActPC
  pcB : ActPC
  deriving DecidableEq, Repr

/-- One atomic step of a single `Activate` call, given its program
counter: the load-and-CAS (from `atStart`), the sandbox `Create` (from
`passedCAS`), and the bind-and-activate write (from `createdSb`).
Finished calls do nothing. -/
def actStepOf (c : ActConfig) (pc : ActPC) :
    SessionStatus × Nat × Option Nat × ActPC :=
  match pc with
  | .atStart =>
      match c.sessionStatus with
      | .ready => (.provisioning, c.sandboxCount, c.boundId, .passedCAS)
      | .provisioning =>
          (c.sessionStatus, c.sandboxCount, c.boundId,
            .doneObserved .provisioning c.boundId)
      | .active =>
          (c.sessionStatus, c.sandboxCount, c.boundId,
            .doneObserved .active c.boundId)
      | .expired => (c.sessionStatus, c.sandboxCount, c.boundId, .doneError)
      | .failed => (c.sessionStatus, c.sandboxCount, c.boundId, .doneError)
  | .passedCAS =>
      (c.sessionStatus, c.sandboxCount + 1, c.boundId,
        .createdSb c.sandboxCount)
  | .createdSb id => (.active, c.sandboxCount, some id, .doneWinner id)
  | pc => (c.sessionStatus, c.sandboxCount, c.boundId, pc)

/-- Scheduler step: `true` steps call A, `false` steps call B. -/
def actStep (c : ActConfig) (who : Bool) : ActConfig :=
  if who then
    let (s, n, b, pc') := actStepOf c c.pcA
    { sessionStatus := s, sandboxCount := n, boundId := b, pcA := pc', pcB := c.pcB }
  else
    let (s, n, b, pc') := actStepOf c c.pcB
    { sessionStatus := s, sandboxCount := n, boundId := b, pcA := c.pcA, pcB := pc' }

/-- Run an interleaving of the two `Activate` calls. -/
def actRun (c : ActConfig) (sched : List Bool) : ActConfig :=
  sched.foldl actStep c

/-- Initial configuration: a `ready` session, `n0` existing sandboxes,
nothing bound, both calls about to start. -/
def actInit (n0 : Nat) : ActConfig :=
  { sessionStatus := .ready, sandboxCount := n0, boundId := none,
    pcA := .atStart, pcB := .atStart }

/-- A call that has returned. -/
def ActPC.isDone : ActPC → Bool
  | .doneWinner _ => true
  | .doneObserved _ _ => true
  | .doneError => true
  | _ => false

/-- The `(status, sandbox_id)` pair a finished call responds with
(`ActivateSessionResponse`); `none` while still running or on error. -/
def callResponse : ActPC → Option (SessionStatus × Option Nat)
  | .doneWinner id => some (.active, some id)
  | .doneObserved s b => some (s, b)
  | _ => none

/-- The states a losing `Activate` call can be in before the winner has
bound the sandbox: not yet started, or returned after observing
`provisioning` (at which point nothing is bound). -/
def actObsOption (l : ActPC) : Prop :=
  l = .atStart ∨ l = .doneObserved .provisioning none

/-- The reachable shapes of a two-caller activation run once somebody has
passed the `ready → provisioning` compare-and-set, with `w` the winner's
program counter and `l` the other call's. -/
def actShape (n0 : Nat) (status : SessionStatus) (count : Nat)
    (bound : Option Nat) (w l : ActPC) : Prop :=
  (status = .provisioning ∧ count = n0 ∧ bound = none
      ∧ w = .passedCAS ∧ actObsOption l)
    ∨ (status = .provisioning ∧ count = n0 + 1 ∧ bound = none
        ∧ w = .createdSb n0 ∧ actObsOption l)
    ∨ (status = .active ∧ count = n0 + 1 ∧ bound = some n0
        ∧ w = .doneWinner n0
        ∧ (actObsOption l ∨ l = .doneObserved .active (some n0)))

/-- Invariant of a two-caller activation run started from a `ready`
session with `n0` existing sandboxes: either nobody has stepped yet, or
the configuration is one of the winner/loser shapes (with either call as
the winner). -/
def actInv (n0 : Nat) (c : ActConfig) : Prop :=
  (c.sessionStatus = .ready ∧ c.sandboxCount = n0 ∧ c.boundId = none
      ∧ c.pcA = .atStart ∧ c.pcB = .atStart)
    ∨ actShape n0 c.sessionStatus c.sandboxCount c.boundId c.pcA c.pcB
    ∨ actShape n0 c.sessionStatus c.sandboxCount c.boundId c.pcB c.pcA

/-- A lowercase hexadecimal character. -/
def isLowerHexChar (c : Char) : Bool := (str "0123456789abcdef").contains c

/-- The canonical textual form produced by `uuid.New().String()`:
36 characters in the 8-4-4-4-12 grouping, lowercase hex digits with
hyphens at indices 8, 13, 18 and 23. -/
def isCanonicalUUIDString (u : Str) : Bool :=
  u.length == 36
    && u.enum.all (fun ic =>
      if ic.1 == 8 || ic.1 == 13 || ic.1 == 18 || ic.1 == 23 then
        ic.2 == '-'
      else isLowerHexChar ic.2)

/-! ## Concrete sample states used by witnesses and counterexamples -/

/-- A pending sandbox row. -/
def rowPending : Sandbox :=
  { id := str "aaaabbbbcccc"
    templateId := str "backend-python"
    userId := str "u1"
    status := .pending
    statusMsg := []
    containerId := []
    createdAt := 100
    startedAt := none
    expiresAt := 200
    metadata := []
    endpoints := [] }

/-- A one-sandbox store with one provisioned service row. -/
def storeOne : Store :=
  { sandboxes := [rowPending]
    services :=
      [{ sandboxId := str "aaaabbbbcccc"
         serviceName := str "postgres"
         serviceType := str "postgres"
         svcStatus := str "ready"
         createdAt := 100 }]
    sessions := [] }

/-- `storeOne` after a successful `Stop` of its sandbox. -/
def storeOneStopped : Store :=
  match stop storeOne rowPending.id with
  | .ok st => st
  | .error _ => storeOne

/-- A running sandbox whose TTL has lapsed. -/
def rowOverdue : Sandbox :=
  { rowPending with id := str "ddddeeeeffff", status := .running, expiresAt := 50 }

/-- An active session whose TTL has lapsed, bound to `rowOverdue`. -/
def sessionOverdue : SessionRow :=
  { id := str "11112222-3333"
    token := str "tok"
    templateId := str "backend-python"
    status := .active
    statusMessage := []
    ttlSeconds := 60
    sandboxId := str "ddddeeeeffff"
    createdAt := 10
    activatedAt := some 20
    expiresAt := some 80 }

/-- A store holding one expired sandbox, one live sandbox and one
expired session. -/
def storeOverdue : Store :=
  { sandboxes := [rowOverdue, rowPending]
    services := []
    sessions := [sessionOverdue] }

/-! ## General lemmas -/

theorem goStartsWith_iff (s p : Str) :
    goStartsWith s p = true ↔ ∃ t, s = p ++ t := by
  induction p generalizing s with
  | nil => simp [goStartsWith]
  | cons d p ih =>
    cases s with
    | nil => simp [goStartsWith]
    | cons c s => simp [goStartsWith, Bool.and_eq_true, beq_iff_eq, ih]

theorem goEndsWith_iff (s p : Str) :
    goEndsWith s p = true ↔ ∃ t, s = t ++ p := by
  rw [goEndsWith, goStartsWith_iff]
  constructor
  · rintro ⟨t, h⟩
    refine ⟨t.reverse, ?_⟩
    have := congrArg List.reverse h
    simpa using this
  · rintro ⟨t, rfl⟩
    exact ⟨t.reverse, by simp⟩

theorem wildcard_branch_iff (p required : Str) :
    (goEndsWith p (str ":*") = true ∧ goStartsWith required p.dropLast = true) ↔
      ∃ q, p = q ++ str ":*" ∧ goStartsWith required (q ++ str ":") = true := by
  have hdrop : ∀ q : Str, (q ++ str ":*").dropLast = q ++ str ":" := by
    intro q
    rw [show str ":*" = [':', '*'] from rfl, show str ":" = [':'] from rfl,
      show q ++ [':', '*'] = (q ++ [':']) ++ ['*'] by simp]
    exact List.dropLast_concat
  constructor
  · rintro ⟨he, hs⟩
    obtain ⟨q, rfl⟩ := (goEndsWith_iff p (str ":*")).mp he
    exact ⟨q, rfl, by rwa [hdrop] at hs⟩
  · rintro ⟨q, rfl, hs⟩
    exact ⟨(goEndsWith_iff _ _).mpr ⟨q, rfl⟩, by rwa [hdrop]⟩

theorem find?_key_filter_not {α} (key : α → Str) (l : List α) (id : Str) :
    (l.filter (fun r => !(key r == id))).find? (fun r => key r == id) = none := by
  rw [List.find?_eq_none]
  intro a ha
  have h := (List.mem_filter.mp ha).2
  simp only [Bool.not_eq_true'] at h
  simp [h]

theorem filter_key_filter_not {α} (key : α → Str) (l : List α) (id : Str) :
    (l.filter (fun r => !(key r == id))).filter (fun r => key r == id) = [] := by
  rw [List.filter_eq_nil_iff]
  intro a ha
  have h := (List.mem_filter.mp ha).2
  simp only [Bool.not_eq_true'] at h
  simp [h]

theorem filter_not_key_of_absent {α} (key : α → Str) (l : List α) (id : Str)
    (h : l.find? (fun r => key r == id) = none) :
    l.filter (fun r => !(key r == id)) = l := by
  rw [List.filter_eq_self]
  intro a ha
  have := List.find?_eq_none.mp h a ha
  simpa using this

theorem find?_map_update {α} (key : α → Str) (g : α → α)
    (hid : ∀ r, key (g r) = key r) (l : List α) (id : Str) (a : α)
    (h : l.find? (fun r => key r == id) = some a) :
    (l.map (fun r => if key r == id then g r else r)).find? (fun r => key r == id)
      = some (g a) := by
  induction l with
  | nil => simp at h
  | cons x xs ih =>
    by_cases hx : (key x == id) = true
    · simp only [List.find?_cons, hx] at h
      obtain rfl : x = a := by injection h
      have hg : (key (g x) == id) = true := by rw [hid]; exact hx
      simp only [List.map_cons, if_pos hx, List.find?_cons, hg]
    · simp only [Bool.not_eq_true] at hx
      simp only [List.find?_cons, hx] at h
      simp only [List.map_cons, if_neg (by simp [hx] : ¬((key x == id) = true))]
      rw [List.find?_cons, hx]
      exact ih h

theorem find?_map_update_other {α} (key : α → Str) (g : α → α)
    (hid : ∀ r, key (g r) = key r) (l : List α) (id oid : Str)
    (hne : (id == oid) = false) :
    (l.map (fun r => if key r == id then g r else r)).find? (fun r => key r == oid)
      = l.find? (fun r => key r == oid) := by
  induction l with
  | nil => rfl
  | cons x xs ih =>
    by_cases hx : (key x == id) = true
    · have hxid : key x = id := by simpa using hx
      have hxoid : (key x == oid) = false := by rw [hxid]; exact hne
      have hgoid : (key (g x) == oid) = false := by rw [hid]; exact hxoid
      simp only [List.map_cons, if_pos hx, List.find?_cons, hxoid, hgoid]
      exact ih
    · simp only [List.map_cons, if_neg hx, List.find?_cons]
      by_cases hxo : (key x == oid) = true
      · simp only [hxo]
      · simp only [Bool.not_eq_true] at hxo
        simp only [hxo]
        exact ih

/-- A found row makes `repoUpdateSandbox` succeed with the mapped store. -/
theorem repoUpdateSandbox_found (st : Store) (incoming sb : Sandbox)
    (h : getSandbox st incoming.id = some sb) :
    repoUpdateSandbox st incoming
      = .ok { st with
          sandboxes := st.sandboxes.map
            (fun r => if r.id == incoming.id then applySandboxUpdate r incoming else r) } := by
  have h' : st.sandboxes.find? (fun r => r.id == incoming.id) = some sb := h
  have hmem := List.mem_of_find?_eq_some h'
  have hpred : (sb.id == incoming.id) = true := by
    have := List.find?_some h'
    simpa using this
  have hany : st.sandboxes.any (fun r => r.id == incoming.id) = true :=
    List.any_eq_true.mpr ⟨sb, hmem, hpred⟩
  rw [repoUpdateSandbox, if_pos hany]

/-! ## C8 — wildcard permission matching -/

/-- C8, counterexample: the claim's match rule accepts any held permission
of the form `prefix + "*"` whose prefix starts the required permission, so
it accepts `required = "foobar"` for the held permission `"foo*"`; the
code's `HasPermission` additionally demands the wildcard end in `":*"` and
returns `false` for this active client. -/
theorem c8_permission_counterexample :
    hasPermission true [str "foo*"] (str "foobar") = false
      ∧ specPermissionRule [str "foo*"] (str "foobar") = true := by
  decide

/-- C8, amended: for an active client, `HasPermission(required)` is true
iff the client holds a permission equal to `required`, or holds a wildcard
permission of the form `q ++ ":*"` such that `required` starts with
`q ++ ":"` (the wildcard must cover a `domain:` prefix, not an arbitrary
prefix), or holds the global `"*"`; in particular `"sandboxes:*"` matches
`"sandboxes:read"` and `"sandboxes:write"` but no other domain, and `"*"`
matches anything. -/
theorem c8_permission (perms : List Str) (required : Str) :
    (hasPermission true perms required = true ↔
      ∃ p ∈ perms, p = required
        ∨ (∃ q, p = q ++ str ":*" ∧ goStartsWith required (q ++ str ":") = true)
        ∨ p = str "*")
    ∧ hasPermission true [str "sandboxes:*"] (str "sandboxes:read") = true
    ∧ hasPermission true [str "sandboxes:*"] (str "sandboxes:write") = true
    ∧ hasPermission true [str "sandboxes:*"] (str "templates:read") = false
    ∧ hasPermission true [str "*"] (str "sandboxes:read") = true
    ∧ hasPermission false perms required = false := by
  refine ⟨?_, by decide, by decide, by decide, by decide, by rfl⟩
  unfold hasPermission
  simp only [Bool.not_true, Bool.false_eq_true, if_false, List.any_eq_true,
    Bool.or_eq_true, beq_iff_eq, Bool.and_eq_true]
  refine exists_congr fun p => and_congr_right fun _ => ?_
  rw [wildcard_branch_iff p required, or_assoc]

/-! ## C5 — terminal transparency -/

/-- C5: the production terminal handler forwards every `input` frame's
data to the exec stream's stdin unmodified (including the single control
bytes 0x03, 0x04 and 0x1A), and wraps every chunk read from the exec
stream into an `output` frame whose data is exactly the bytes read. -/
theorem c5_terminal_transparent :
    (∀ (data : Str) (cols rows : Int),
      handleClientFrame
          { msgType := str "input", data := data, cols := cols, rows := rows }
        = .writeStdin data)
    ∧ handleClientFrame
        { msgType := str "input", data := [Char.ofNat 0x03], cols := 0, rows := 0 }
      = .writeStdin [Char.ofNat 0x03]
    ∧ handleClientFrame
        { msgType := str "input", data := [Char.ofNat 0x04], cols := 0, rows := 0 }
      = .writeStdin [Char.ofNat 0x04]
    ∧ handleClientFrame
        { msgType := str "input", data := [Char.ofNat 0x1a], cols := 0, rows := 0 }
      = .writeStdin [Char.ofNat 0x1a]
    ∧ (∀ chunk : Str,
        (containerChunkFrame chunk).data = chunk
          ∧ (containerChunkFrame chunk).msgType = str "output") := by
  refine ⟨?_, by decide, by decide, by decide, fun chunk => ⟨rfl, rfl⟩⟩
  intro data cols rows
  simp [handleClientFrame]

/-! ## C6 — postgres password generation -/

/-- C6: evaluating `generatePassword` on the failing input.  When the
`crypto/rand` read fails, the code does not propagate an error: it returns
the deterministic string `"sandbox_default_pass_16"` synthesized from the
requested length, and `Provision` proceeds with it.  On the success path
the password is the 16-character lowercase-hex truncation of the encoded
random bytes (shown here on a sample byte string). -/
theorem c6_password_fallback :
    generatePassword 16 none = str "sandbox_default_pass_16"
      ∧ (generatePassword 16
            (some [1, 35, 69, 103, 137, 171, 205, 239, 18, 52, 86, 120, 154, 188, 222, 240])).length
          = 16
      ∧ (generatePassword 16
            (some [1, 35, 69, 103, 137, 171, 205, 239, 18, 52, 86, 120, 154, 188, 222, 240])).all
            isLowerHexChar
          = true := by
  decide

/-! ## C10 — frame effect of a status update -/

/-- The full effect of `updateStatus` on a store that holds the row. -/
theorem updateStatus_spec (st : Store) (id : Str)
    (status : SandboxStatus) (msg : Str) (sb : Sandbox)
    (h : getSandbox st id = some sb) :
    getSandbox (updateStatus st id status msg) id
        = some { sb with status := status, statusMsg := msg }
      ∧ (updateStatus st id status msg).services = st.services
      ∧ (updateStatus st id status msg).sessions = st.sessions
      ∧ ∀ oid, (id == oid) = false →
          getSandbox (updateStatus st id status msg) oid = getSandbox st oid := by
  have h' : st.sandboxes.find? (fun r => r.id == id) = some sb := h
  have hsbid : sb.id = id := by
    have := List.find?_some h'
    simpa using this
  have hfound : getSandbox st (Sandbox.id { sb with status := status, statusMsg := msg })
      = some sb := by
    show getSandbox st sb.id = some sb
    rw [hsbid]; exact h
  have hupd := repoUpdateSandbox_found st { sb with status := status, statusMsg := msg } sb hfound
  have hst : updateStatus st id status msg
      = { st with
          sandboxes := st.sandboxes.map
            (fun r => if r.id == sb.id then
              applySandboxUpdate r { sb with status := status, statusMsg := msg } else r) } := by
    simp only [updateStatus, h, hupd]
  refine ⟨?_, by rw [hst], by rw [hst], ?_⟩
  · rw [hst]
    show List.find? _ _ = _
    rw [← hsbid] at h' ⊢
    have := find?_map_update (fun r : Sandbox => r.id)
      (fun r => applySandboxUpdate r { sb with status := status, statusMsg := msg })
      (fun r => rfl) st.sandboxes sb.id sb h'
    rw [this]
    rfl
  · intro oid hne
    rw [hst]
    show List.find? _ _ = _
    rw [← hsbid] at hne
    exact find?_map_update_other (fun r : Sandbox => r.id)
      (fun r => applySandboxUpdate r { sb with status := status, statusMsg := msg })
      (fun r => rfl) st.sandboxes sb.id oid hne

/-- C10: when the provisioning pipeline records a failure through
`updateStatus`, the stored row changes only in `status` and
`status_message`: the post-state row is exactly the pre-state row with
those two fields replaced (so `template_id`, `user_id`, `container_id`,
`created_at`, `started_at`, `expires_at`, `metadata` and `endpoints` are
unaltered), the service and session tables are untouched, and every other
sandbox row is unchanged. -/
theorem c10_update_status_frame (st : Store) (id : Str)
    (status : SandboxStatus) (msg : Str) (sb : Sandbox)
    (h : getSandbox st id = some sb) :
    getSandbox (updateStatus st id status msg) id
        = some { sb with status := status, statusMsg := msg }
      ∧ (updateStatus st id status msg).services = st.services
      ∧ (updateStatus st id status msg).sessions = st.sessions
      ∧ ∀ oid, (id == oid) = false →
          getSandbox (updateStatus st id status msg) oid = getSandbox st oid :=
  updateStatus_spec st id status msg sb h

/-- C10, witness: the frame property applied to the one-sandbox store. -/
theorem c10_update_status_frame_witness :
    getSandbox (updateStatus storeOne (str "aaaabbbbcccc") .failed (str "boom"))
        (str "aaaabbbbcccc")
      = some { rowPending with status := .failed, statusMsg := str "boom" } :=
  (c10_update_status_frame storeOne (str "aaaabbbbcccc") .failed (str "boom")
    rowPending (by decide)).1

/-! ## C2 — Delete removes the row and its service rows -/

/-- C2: whenever `Delete(id)` finds the sandbox row — in any state — it
returns successfully with a store holding no sandbox row with that id and
no service rows with `sandbox_id = id`; the container stop/remove failure
flags and the per-provider `Deprovision` failure oracle have no influence
on this outcome, and sessions are untouched. -/
theorem c2_delete_removes_rows (st : Store) (id : Str)
    (containerStopFailed containerRemoveFailed : Bool)
    (deprovisionFailed : Str → Bool) (sb : Sandbox)
    (h : getSandbox st id = some sb) :
    ∃ st',
      managerDelete st id containerStopFailed containerRemoveFailed
          deprovisionFailed
        = .ok st'
      ∧ getSandbox st' id = none
      ∧ getServices st' id = []
      ∧ st'.sessions = st.sessions := by
  have h' : st.sandboxes.find? (fun r => r.id == id) = some sb := h
  have hmem := List.mem_of_find?_eq_some h'
  have hpred : (sb.id == id) = true := by
    have := List.find?_some h'
    simpa using this
  have hany : st.sandboxes.any (fun r => r.id == id) = true :=
    List.any_eq_true.mpr ⟨sb, hmem, hpred⟩
  refine ⟨{ st with
      sandboxes := st.sandboxes.filter (fun r => !(r.id == id))
      services := st.services.filter (fun r => !(r.sandboxId == id)) },
    ?_, ?_, ?_, rfl⟩
  · simp only [managerDelete, h, repoDeleteSandbox, if_pos hany]
  · exact find?_key_filter_not (fun r : Sandbox => r.id) st.sandboxes id
  · exact filter_key_filter_not (fun r : SvcRow => r.sandboxId) st.services id

/-- C2, witness: deleting the one-sandbox store's sandbox while the
container stop, the container remove and the provider deprovision all
fail still empties both tables. -/
theorem c2_delete_removes_rows_witness :
    ∃ st',
      managerDelete storeOne (str "aaaabbbbcccc") true true (fun _ => true)
        = .ok st'
      ∧ getSandbox st' (str "aaaabbbbcccc") = none
      ∧ getServices st' (str "aaaabbbbcccc") = []
      ∧ st'.sessions = storeOne.sessions :=
  c2_delete_removes_rows storeOne (str "aaaabbbbcccc") true true (fun _ => true)
    rowPending (by decide)

/-! ## C1 — terminal statuses -/

/-- C1, counterexample: `Stop` persists the terminal status `stopped`,
yet the provisioning pipeline's success write (`finishProvision`, the end
of `provisionSandbox`) then overwrites the row with `running` using the
background task's stale in-memory copy — a status write of the pipeline
that moves a sandbox whose persisted status had meanwhile become terminal
back to a non-terminal status, refuting the claim as stated. -/
theorem c1_terminal_counterexample :
    stop storeOne (str "aaaabbbbcccc") = .ok storeOneStopped
      ∧ (getSandbox storeOneStopped (str "aaaabbbbcccc")).map Sandbox.status
          = some .stopped
      ∧ SandboxStatus.isTerminal .stopped = true
      ∧ (getSandbox (finishProvision storeOneStopped rowPending 150)
            (str "aaaabbbbcccc")).map Sandbox.status
          = some .running
      ∧ SandboxStatus.isTerminal .running = false := by
  decide

/-- C1, amended: `Stop` and `ExtendTTL` reject a terminal sandbox with
`SandboxStopped`, and the provisioning pipeline's failure writes through
`updateStatus` only ever store the terminal status `failed` — so they
never move any sandbox to a non-terminal status.  (The pipeline's success
write is exempt: it stores `running` unconditionally, last-writer-wins,
as the counterexample shows and as spec §5 permits for this race.) -/
theorem c1_terminal_guards (st : Store) (id : Str) (sb : Sandbox)
    (duration : Nat) (h : getSandbox st id = some sb)
    (ht : sb.status.isTerminal = true) :
    stop st id = .error .sandboxStopped
      ∧ extendTTL st id duration = .error .sandboxStopped
      ∧ ∀ msg, getSandbox (updateStatus st id .failed msg) id
            = some { sb with status := .failed, statusMsg := msg }
          ∧ SandboxStatus.isTerminal .failed = true := by
  refine ⟨?_, ?_, fun msg => ⟨(updateStatus_spec st id .failed msg sb h).1, rfl⟩⟩
  · simp only [stop, h, ht, if_true]
  · simp only [extendTTL, h, ht, if_true]

/-- C1, witness: the guards observed on the stopped one-sandbox store. -/
theorem c1_terminal_guards_witness :
    SandboxStatus.isTerminal
        (Sandbox.status { rowPending with status := .stopped }) = true
      ∧ stop storeOneStopped (str "aaaabbbbcccc") = .error .sandboxStopped
      ∧ extendTTL storeOneStopped (str "aaaabbbbcccc") 60
          = .error .sandboxStopped :=
  ⟨by decide,
    (c1_terminal_guards storeOneStopped (str "aaaabbbbcccc")
      { rowPending with status := .stopped } 60 (by decide) (by decide)).1,
    (c1_terminal_guards storeOneStopped (str "aaaabbbbcccc")
      { rowPending with status := .stopped } 60 (by decide) (by decide)).2.1⟩

/-! ## C4 — Create -/

/-- C4, counterexample: for the canonical UUID string
`"12345678-9abc-def0-1234-56789abcdef0"`, `Create` derives the id
`uuid.String()[:12] = "12345678-9ab"` — twelve characters of the UUID
string including its hyphen, not twelve hexadecimal characters as the
claim states; and with `opts.ttl` supplied as zero the stored
`expires_at` is `now + 3600` (the one-hour default), not `now + 0` as the
claim's "ttl is opts.ttl if supplied" would have it. -/
theorem c4_create_counterexample :
    isCanonicalUUIDString (str "12345678-9abc-def0-1234-56789abcdef0") = true
      ∧ ((managerCreate { sandboxes := [], services := [], sessions := [] }
            (some { ttl := 7200, services := [] }) (str "backend-python")
            (str "u1") (str "12345678-9abc-def0-1234-56789abcdef0") 1000
            { ttl := some 0, metadata := [] }).toOption.map
          (fun res => (res.1.id, res.1.id.all isLowerHexChar, res.1.expiresAt)))
        = some (str "12345678-9ab", false, 4600)
      ∧ (4600 : Nat) ≠ 1000 + 0 := by
  decide

/-- C4, amended: `Create` with an unknown template fails with
`TemplateNotFound` and persists nothing; otherwise it persists and
returns a row whose id is the first 12 characters of the fresh UUID's
canonical string (11 hex digits and the hyphen at index 8), whose status
is `pending` with empty services, endpoints, message and container id,
and whose `expires_at` is the creation time plus `computeTTL`, where the
TTL is `opts.ttl` if supplied, else the template TTL, a zero result
falling back to one hour; `Create` returns before provisioning touches
anything. -/
theorem c4_create (st : Store) (t : Template)
    (templateID userID uuidString : Str) (now : Nat) (opts : CreateOptions)
    (hfresh : st.sandboxes.any (fun r => r.id == uuidString.take 12) = false) :
    managerCreate st none templateID userID uuidString now opts
        = .error .templateNotFound
      ∧ (∃ sb st',
          managerCreate st (some t) templateID userID uuidString now opts
              = .ok (sb, st')
            ∧ sb.id = uuidString.take 12
            ∧ sb.status = .pending
            ∧ sb.statusMsg = [] ∧ sb.containerId = [] ∧ sb.endpoints = []
            ∧ sb.createdAt = now
            ∧ sb.expiresAt = now + computeTTL t.ttl opts.ttl
            ∧ getSandbox st' sb.id = some sb
            ∧ st'.services = st.services
            ∧ st'.sessions = st.sessions)
      ∧ (∀ ttl0, computeTTL ttl0 none = if ttl0 = 0 then 3600 else ttl0)
      ∧ (∀ ttl0 v, computeTTL ttl0 (some v) = if v = 0 then 3600 else v) := by
  refine ⟨rfl, ?_, ?_, ?_⟩
  · refine ⟨createdRow templateID userID (uuidString.take 12) now
        (computeTTL t.ttl opts.ttl) opts.metadata,
      { st with sandboxes :=
          (createdRow templateID userID (uuidString.take 12) now
            (computeTTL t.ttl opts.ttl) opts.metadata) :: st.sandboxes },
      ?_, rfl, rfl, rfl, rfl, rfl, rfl, rfl, ?_, rfl, rfl⟩
    · simp only [managerCreate, repoCreateSandbox, deriveSandboxId, createdRow,
        hfresh, Bool.false_eq_true, if_false]
    · show List.find? _ _ = _
      rw [List.find?_cons]
      simp
  · intro ttl0
    by_cases h0 : ttl0 = 0 <;> simp [computeTTL, h0]
  · intro ttl0 v
    by_cases h0 : v = 0 <;> simp [computeTTL, h0]

/-- C4, witness: creating against a missing template on an empty store. -/
theorem c4_create_witness :
    managerCreate { sandboxes := [], services := [], sessions := [] } none
        (str "backend-python") (str "u1")
        (str "12345678-9abc-def0-1234-56789abcdef0") 5
        { ttl := none, metadata := [] }
      = .error .templateNotFound :=
  (c4_create { sandboxes := [], services := [], sessions := [] }
    { ttl := 0, services := [] } (str "backend-python") (str "u1")
    (str "12345678-9abc-def0-1234-56789abcdef0") 5
    { ttl := none, metadata := [] } (by decide)).1

/-! ## C9 — list pagination -/

theorem length_insertByCreatedDesc (sb : Sandbox) (l : List Sandbox) :
    (insertByCreatedDesc sb l).length = l.length + 1 := by
  induction l with
  | nil => rfl
  | cons x xs ih =>
    rw [insertByCreatedDesc]
    by_cases hc : x.createdAt ≤ sb.createdAt
    · rw [if_pos hc]; rfl
    · rw [if_neg hc]
      simp [ih]

theorem length_sortByCreatedDesc (l : List Sandbox) :
    (sortByCreatedDesc l).length = l.length := by
  induction l with
  | nil => rfl
  | cons x xs ih =>
    show (insertByCreatedDesc x (sortByCreatedDesc xs)).length = xs.length + 1
    rw [length_insertByCreatedDesc, ih]

theorem mem_insertByCreatedDesc (y sb : Sandbox) (l : List Sandbox) :
    y ∈ insertByCreatedDesc sb l ↔ y = sb ∨ y ∈ l := by
  induction l with
  | nil => simp [insertByCreatedDesc]
  | cons x xs ih =>
    rw [insertByCreatedDesc]
    by_cases hc : x.createdAt ≤ sb.createdAt
    · rw [if_pos hc]
      simp
    · rw [if_neg hc]
      simp [ih]
      tauto

theorem pairwise_insertByCreatedDesc (sb : Sandbox) (l : List Sandbox)
    (h : l.Pairwise (fun a b => b.createdAt ≤ a.createdAt)) :
    (insertByCreatedDesc sb l).Pairwise (fun a b => b.createdAt ≤ a.createdAt) := by
  induction l with
  | nil => simp [insertByCreatedDesc]
  | cons x xs ih =>
    obtain ⟨hx, hxs⟩ := List.pairwise_cons.mp h
    rw [insertByCreatedDesc]
    by_cases hc : x.createdAt ≤ sb.createdAt
    · rw [if_pos hc]
      refine List.Pairwise.cons ?_ h
      intro y hy
      rcases List.mem_cons.mp hy with rfl | hy'
      · exact hc
      · exact Nat.le_trans (hx y hy') hc
    · rw [if_neg hc]
      refine List.Pairwise.cons ?_ (ih hxs)
      intro y hy
      rcases (mem_insertByCreatedDesc y sb xs).mp hy with rfl | hy'
      · exact Nat.le_of_lt (Nat.lt_of_not_le hc)
      · exact hx y hy'

theorem pairwise_sortByCreatedDesc (l : List Sandbox) :
    (sortByCreatedDesc l).Pairwise (fun a b => b.createdAt ≤ a.createdAt) := by
  induction l with
  | nil => simp [sortByCreatedDesc]
  | cons x xs ih =>
    exact pairwise_insertByCreatedDesc x (sortByCreatedDesc xs) ih

/-- `ListSandboxes` with an offset covering all matching rows is empty. -/
theorem listSandboxes_offset_ge (st : Store) (f : ListFilters)
    (h : (st.sandboxes.filter (matchesFilters f)).length ≤ f.offset.toNat) :
    listSandboxes st f = [] := by
  rw [listSandboxes]
  have hlens : (sortByCreatedDesc
      (st.sandboxes.filter (matchesFilters f))).length ≤ f.offset.toNat := by
    rw [length_sortByCreatedDesc]; exact h
  have hafter : (if f.offset > 0 then
      (sortByCreatedDesc (st.sandboxes.filter (matchesFilters f))).drop
        f.offset.toNat
    else sortByCreatedDesc (st.sandboxes.filter (matchesFilters f))) = [] := by
    split
    · exact List.drop_eq_nil_of_le hlens
    · rename_i hneg
      have h0 : f.offset.toNat = 0 := Int.toNat_of_nonpos (Int.not_lt.mp hneg)
      rw [h0] at hlens
      exact List.eq_nil_of_length_eq_zero (Nat.le_zero.mp hlens)
  rw [hafter]
  split <;> simp

/-- `ListSandboxes` results are ordered by `created_at DESC`. -/
theorem listSandboxes_sorted (st : Store) (f : ListFilters) :
    (listSandboxes st f).Pairwise (fun a b => b.createdAt ≤ a.createdAt) := by
  rw [listSandboxes]
  have hs := pairwise_sortByCreatedDesc (st.sandboxes.filter (matchesFilters f))
  have hdrop : (if f.offset > 0 then
      (sortByCreatedDesc (st.sandboxes.filter (matchesFilters f))).drop
        f.offset.toNat
    else sortByCreatedDesc (st.sandboxes.filter (matchesFilters f))).Pairwise
      (fun a b => b.createdAt ≤ a.createdAt) := by
    split
    · exact hs.sublist (List.drop_sublist _ _)
    · exact hs
  split
  · exact hdrop.sublist (List.take_sublist _ _)
  · exact hdrop

/-- C9: a list request whose offset is at least the number of matching
rows returns the empty result; a request with `limit=0` behaves exactly
as the default page size of 50 (the handler replaces any non-positive
limit by 50); and the result is ordered by `created_at` descending. -/
theorem c9_list_pagination (st : Store) (userQ templateQ statusQ : Str)
    (limitParam offsetParam : Option Int) :
    (∀ off : Int, 0 ≤ off →
        (st.sandboxes.filter (matchesQuery userQ templateQ statusQ)).length
            ≤ off.toNat →
        handleListSandboxes st userQ templateQ statusQ limitParam (some off)
          = [])
      ∧ handleListSandboxes st userQ templateQ statusQ (some 0) offsetParam
          = handleListSandboxes st userQ templateQ statusQ (some 50) offsetParam
      ∧ (handleListSandboxes st userQ templateQ statusQ limitParam
            offsetParam).Pairwise
          (fun a b => b.createdAt ≤ a.createdAt) := by
  refine ⟨?_, ?_, ?_⟩
  · intro off hoff hlen
    rw [handleListSandboxes]
    apply listSandboxes_offset_ge
    have hofe : effectiveOffset (some off) = off := by
      rw [effectiveOffset, if_pos hoff]
    show (st.sandboxes.filter (matchesQuery userQ templateQ statusQ)).length
      ≤ (effectiveOffset (some off)).toNat
    rw [hofe]
    exact hlen
  · have h50 : effectiveLimit (some 0) = effectiveLimit (some 50) := by
      rw [effectiveLimit, effectiveLimit]
      norm_num
    rw [handleListSandboxes, handleListSandboxes, h50]
  · rw [handleListSandboxes]
    exact listSandboxes_sorted st _

/-- C9, witness: on the one-sandbox store, offset 1 with no other filters
reaches past the single matching row and yields the empty page. -/
theorem c9_list_pagination_witness :
    (0 : Int) ≤ 1
      ∧ (storeOne.sandboxes.filter (matchesQuery [] [] [])).length
          ≤ (1 : Int).toNat
      ∧ handleListSandboxes storeOne [] [] [] none (some 1) = [] := by
  refine ⟨by decide, by decide, ?_⟩
  exact (c9_list_pagination storeOne [] [] [] none (some 1)).1 1
    (by decide) (by decide)

/-! ## C7 — the reaper cycle -/

theorem tryDelete_sandboxes (acc : Store) (id : Str) :
    (tryDelete acc id).sandboxes
      = acc.sandboxes.filter (fun r => !(r.id == id)) := by
  rw [tryDelete]
  cases hg : getSandbox acc id with
  | none =>
    simp only [managerDelete, hg]
    exact (filter_not_key_of_absent (fun r : Sandbox => r.id) acc.sandboxes id
      hg).symm
  | some sb =>
    have h' : acc.sandboxes.find? (fun r => r.id == id) = some sb := hg
    have hany : acc.sandboxes.any (fun r => r.id == id) = true :=
      List.any_eq_true.mpr ⟨sb, List.mem_of_find?_eq_some h',
        by simpa using List.find?_some h'⟩
    simp only [managerDelete, hg, repoDeleteSandbox, if_pos hany]

theorem tryDelete_sessions (acc : Store) (id : Str) :
    (tryDelete acc id).sessions = acc.sessions := by
  rw [tryDelete]
  cases hg : getSandbox acc id with
  | none => simp only [managerDelete, hg]
  | some sb =>
    have h' : acc.sandboxes.find? (fun r => r.id == id) = some sb := hg
    have hany : acc.sandboxes.any (fun r => r.id == id) = true :=
      List.any_eq_true.mpr ⟨sb, List.mem_of_find?_eq_some h',
        by simpa using List.find?_some h'⟩
    simp only [managerDelete, hg, repoDeleteSandbox, if_pos hany]

theorem trySessionDelete_sessions (acc : Store) (sid : Str) :
    (trySessionDelete acc sid).sessions
      = acc.sessions.filter (fun r => !(r.id == sid)) := by
  rw [trySessionDelete]
  cases hg : acc.sessions.find? (fun s => s.id == sid) with
  | none =>
    simp only [deleteSession, hg]
    exact (filter_not_key_of_absent (fun r : SessionRow => r.id) acc.sessions
      sid hg).symm
  | some s =>
    simp only [deleteSession, hg]
    by_cases hb : s.sandboxId.isEmpty
    · simp [hb]
    · simp [hb, tryDelete_sessions]

theorem trySessionDelete_sandboxes_mem (acc : Store) (sid : Str) (r : Sandbox)
    (h : r ∈ (trySessionDelete acc sid).sandboxes) : r ∈ acc.sandboxes := by
  cases hg : acc.sessions.find? (fun s => s.id == sid) with
  | none =>
    simp only [trySessionDelete, deleteSession, hg] at h
    exact h
  | some s =>
    simp only [trySessionDelete, deleteSession, hg] at h
    by_cases hb : s.sandboxId.isEmpty
    · simpa [hb] using h
    · simp only [hb, Bool.false_eq_true, if_false] at h
      have h' : r ∈ (tryDelete acc s.sandboxId).sandboxes := h
      rw [tryDelete_sandboxes] at h'
      exact (List.mem_filter.mp h').1

theorem foldl_tryDelete_mem (L : List Sandbox) (st : Store) (r : Sandbox)
    (h : r ∈ (L.foldl (fun acc x => tryDelete acc x.id) st).sandboxes) :
    r ∈ st.sandboxes := by
  induction L generalizing st with
  | nil => simpa using h
  | cons x L ih =>
    have h' := ih (tryDelete st x.id) (by simpa using h)
    rw [tryDelete_sandboxes] at h'
    exact (List.mem_filter.mp h').1

theorem foldl_tryDelete_sessions (L : List Sandbox) (st : Store) :
    (L.foldl (fun acc x => tryDelete acc x.id) st).sessions = st.sessions := by
  induction L generalizing st with
  | nil => rfl
  | cons x L ih => rw [List.foldl_cons, ih, tryDelete_sessions]

theorem foldl_tryDelete_removes (L : List Sandbox) (sb : Sandbox) :
    sb ∈ L → ∀ (st : Store) (r : Sandbox),
      r ∈ (L.foldl (fun acc x => tryDelete acc x.id) st).sandboxes →
      (r.id == sb.id) = false := by
  induction L with
  | nil => intro hsb; cases hsb
  | cons x L ih =>
    intro hsb st r hr
    rw [List.foldl_cons] at hr
    rcases List.mem_cons.mp hsb with heq | hmem
    · subst heq
      have h1 : r ∈ (tryDelete st sb.id).sandboxes :=
        foldl_tryDelete_mem L _ r hr
      rw [tryDelete_sandboxes] at h1
      have h2 := (List.mem_filter.mp h1).2
      simpa using h2
    · exact ih hmem _ r hr

theorem foldl_trySession_sandboxes_mem (L : List SessionRow) (st : Store)
    (r : Sandbox)
    (h : r ∈ (L.foldl (fun acc s => trySessionDelete acc s.id) st).sandboxes) :
    r ∈ st.sandboxes := by
  induction L generalizing st with
  | nil => simpa using h
  | cons x L ih =>
    exact trySessionDelete_sandboxes_mem st x.id r
      (ih (trySessionDelete st x.id) (by simpa using h))

theorem foldl_trySession_sessions_mem (L : List SessionRow) (st : Store)
    (r : SessionRow)
    (h : r ∈ (L.foldl (fun acc s => trySessionDelete acc s.id) st).sessions) :
    r ∈ st.sessions := by
  induction L generalizing st with
  | nil => simpa using h
  | cons x L ih =>
    have h' := ih (trySessionDelete st x.id) (by simpa using h)
    rw [trySessionDelete_sessions] at h'
    exact (List.mem_filter.mp h').1

theorem foldl_trySession_removes (L : List SessionRow) (s : SessionRow) :
    s ∈ L → ∀ (st : Store) (r : SessionRow),
      r ∈ (L.foldl (fun acc x => trySessionDelete acc x.id) st).sessions →
      (r.id == s.id) = false := by
  induction L with
  | nil => intro hs; cases hs
  | cons x L ih =>
    intro hs st r hr
    rw [List.foldl_cons] at hr
    rcases List.mem_cons.mp hs with heq | hmem
    · subst heq
      have h1 : r ∈ (trySessionDelete st s.id).sessions :=
        foldl_trySession_sessions_mem L _ r hr
      rw [trySessionDelete_sessions] at h1
      have h2 := (List.mem_filter.mp h1).2
      simpa using h2
    · exact ih hmem _ r hr

/-- C7: one reaper cycle in which every delete succeeds (the failure
oracles report no failure) leaves no sandbox that is non-terminal and past
its `expires_at`, and no session that is `active` and past its
`expires_at`.  The cycle first Manager-deletes every expired sandbox it
loaded, then Session-deletes every expired session (which also deletes the
session's bound sandbox), each loop continuing past individual failures by
construction of the failure oracles. -/
theorem c7_reaper_cycle (st : Store) (now : Nat) (F G : Str → Bool)
    (hF : ∀ i, F i = false) (hG : ∀ i, G i = false) :
    expiredSandboxes (cleanupCycle st now F G) now = []
      ∧ expiredSessions (cleanupCycle st now F G) now = [] := by
  have hfunF : (fun (acc : Store) (sb : Sandbox) =>
      if F sb.id then acc else tryDelete acc sb.id)
      = fun acc sb => tryDelete acc sb.id := by
    funext acc sb
    rw [hF]
    simp
  have hfunG : (fun (acc : Store) (s : SessionRow) =>
      if G s.id then acc else trySessionDelete acc s.id)
      = fun acc s => trySessionDelete acc s.id := by
    funext acc s
    rw [hG]
    simp
  rw [cleanupCycle, cleanupSandboxes, cleanupSessions, hfunF, hfunG]
  constructor
  · rw [expiredSandboxes, List.filter_eq_nil_iff]
    intro a ha hp
    have h1 : a ∈ ((expiredSandboxes st now).foldl
        (fun acc x => tryDelete acc x.id) st).sandboxes :=
      foldl_trySession_sandboxes_mem _ _ _ ha
    have h2 : a ∈ st.sandboxes := foldl_tryDelete_mem _ _ _ h1
    have hexp : a ∈ expiredSandboxes st now := by
      rw [expiredSandboxes]
      exact List.mem_filter.mpr ⟨h2, hp⟩
    have := foldl_tryDelete_removes _ a hexp st a h1
    simp at this
  · rw [expiredSessions, List.filter_eq_nil_iff]
    intro a ha hp
    have h1 : a ∈ ((expiredSandboxes st now).foldl
        (fun acc x => tryDelete acc x.id) st).sessions :=
      foldl_trySession_sessions_mem _ _ _ ha
    have hexp : a ∈ expiredSessions ((expiredSandboxes st now).foldl
        (fun acc x => tryDelete acc x.id) st) now := by
      rw [expiredSessions]
      exact List.mem_filter.mpr ⟨h1, hp⟩
    have := foldl_trySession_removes _ a hexp _ a ha
    simp at this

/-- C7, witness: the cycle empties the expired entries of the overdue
store (one expired running sandbox, one expired active session). -/
theorem c7_reaper_cycle_witness :
    expiredSandboxes
        (cleanupCycle storeOverdue 100 (fun _ => false) (fun _ => false)) 100
      = []
      ∧ expiredSessions
          (cleanupCycle storeOverdue 100 (fun _ => false) (fun _ => false)) 100
        = [] :=
  c7_reaper_cycle storeOverdue 100 (fun _ => false) (fun _ => false)
    (fun _ => rfl) (fun _ => rfl)

/-! ## C3 — idempotent activation -/

theorem actInv_step (n0 : Nat) (c : ActConfig) (who : Bool)
    (h : actInv n0 c) : actInv n0 (actStep c who) := by
  obtain ⟨s, n, b, pA, pB⟩ := c
  simp only [actInv, actShape, actObsOption] at h ⊢
  rcases h with ⟨rfl, rfl, rfl, rfl, rfl⟩
    | (⟨rfl, rfl, rfl, rfl, rfl | rfl⟩ | ⟨rfl, rfl, rfl, rfl, rfl | rfl⟩
        | ⟨rfl, rfl, rfl, rfl, (rfl | rfl) | rfl⟩)
    | (⟨rfl, rfl, rfl, rfl, rfl | rfl⟩ | ⟨rfl, rfl, rfl, rfl, rfl | rfl⟩
        | ⟨rfl, rfl, rfl, rfl, (rfl | rfl) | rfl⟩) <;>
  cases who <;>
  simp [actStep, actStepOf]

theorem actInv_run (n0 : Nat) (c : ActConfig) (sched : List Bool)
    (h : actInv n0 c) : actInv n0 (actRun c sched) := by
  induction sched generalizing c with
  | nil => exact h
  | cons w ws ih => exact ih _ (actInv_step n0 c w h)

theorem actInv_both_done (n0 : Nat) (c : ActConfig) (h : actInv n0 c)
    (hA : c.pcA.isDone = true) (hB : c.pcB.isDone = true) :
    c.sandboxCount = n0 + 1
      ∧ c.sessionStatus = .active
      ∧ c.boundId = some n0
      ∧ ((callResponse c.pcA = some (.active, some n0)
            ∧ (callResponse c.pcB = some (.provisioning, none)
              ∨ callResponse c.pcB = some (.active, some n0)))
        ∨ (callResponse c.pcB = some (.active, some n0)
            ∧ (callResponse c.pcA = some (.provisioning, none)
              ∨ callResponse c.pcA = some (.active, some n0)))) := by
  obtain ⟨s, n, b, pA, pB⟩ := c
  simp only [actInv, actShape, actObsOption] at h
  rcases h with ⟨rfl, rfl, rfl, rfl, rfl⟩
    | (⟨rfl, rfl, rfl, rfl, rfl | rfl⟩ | ⟨rfl, rfl, rfl, rfl, rfl | rfl⟩
        | ⟨rfl, rfl, rfl, rfl, (rfl | rfl) | rfl⟩)
    | (⟨rfl, rfl, rfl, rfl, rfl | rfl⟩ | ⟨rfl, rfl, rfl, rfl, rfl | rfl⟩
        | ⟨rfl, rfl, rfl, rfl, (rfl | rfl) | rfl⟩) <;>
  simp_all [ActPC.isDone, callResponse]

theorem actRun_nonready (status0 : SessionStatus)
    (h : status0 = .active ∨ status0 = .provisioning) (count0 : Nat)
    (bound0 : Option Nat) (pA pB : ActPC)
    (hA : pA = .atStart ∨ pA = .doneObserved status0 bound0)
    (hB : pB = .atStart ∨ pB = .doneObserved status0 bound0)
    (sched : List Bool) :
    (actRun ⟨status0, count0, bound0, pA, pB⟩ sched).sandboxCount = count0
      ∧ (actRun ⟨status0, count0, bound0, pA, pB⟩ sched).sessionStatus = status0
      ∧ (actRun ⟨status0, count0, bound0, pA, pB⟩ sched).boundId = bound0 := by
  induction sched generalizing pA pB with
  | nil => exact ⟨rfl, rfl, rfl⟩
  | cons w ws ih =>
    cases w with
    | true =>
      rcases hA with rfl | rfl <;> rcases h with rfl | rfl
      · exact ih (.doneObserved .active bound0) pB (Or.inr rfl) hB
      · exact ih (.doneObserved .provisioning bound0) pB (Or.inr rfl) hB
      · exact ih (.doneObserved .active bound0) pB (Or.inr rfl) hB
      · exact ih (.doneObserved .provisioning bound0) pB (Or.inr rfl) hB
    | false =>
      rcases hB with rfl | rfl <;> rcases h with rfl | rfl
      · exact ih pA (.doneObserved .active bound0) hA (Or.inr rfl)
      · exact ih pA (.doneObserved .provisioning bound0) hA (Or.inr rfl)
      · exact ih pA (.doneObserved .active bound0) hA (Or.inr rfl)
      · exact ih pA (.doneObserved .provisioning bound0) hA (Or.inr rfl)

/-- C3, counterexample: in the interleaving where call A passes the
`ready → provisioning` compare-and-set, call B then loads the session and
returns the observed `provisioning` state, and A finishes — both calls
complete, but A's response carries the sandbox id while B's response
carries none, refuting "both calls return a response with the same
sandbox_id". -/
theorem c3_activation_counterexample :
    (actRun (actInit 0) [true, false, true, true]).pcA.isDone = true
      ∧ (actRun (actInit 0) [true, false, true, true]).pcB.isDone = true
      ∧ callResponse (actRun (actInit 0) [true, false, true, true]).pcA
          = some (.active, some 0)
      ∧ callResponse (actRun (actInit 0) [true, false, true, true]).pcB
          = some (.provisioning, none)
      ∧ some (SessionStatus.active, some 0)
          ≠ some (SessionStatus.provisioning, (none : Option Nat)) := by
  decide

/-- C3, amended (modelled from the spec, the Session Manager source being
absent from the tree): for a ready session, any interleaving of two
`Activate` calls that both complete creates exactly one sandbox — the
`ready → provisioning` compare-and-set is the mutex — the session ends
`active` with that sandbox bound, and each call responds either with the
bound sandbox id (status `active`) or, when it observed the session
mid-provisioning, with status `provisioning` and no sandbox id; a repeated
`Activate` on an already `active` or `provisioning` session returns the
current state and creates nothing in any interleaving. -/
theorem c3_activation (n0 : Nat) (sched : List Bool)
    (h : (actRun (actInit n0) sched).pcA.isDone = true
      ∧ (actRun (actInit n0) sched).pcB.isDone = true) :
    ((actRun (actInit n0) sched).sandboxCount = n0 + 1
      ∧ (actRun (actInit n0) sched).sessionStatus = .active
      ∧ (actRun (actInit n0) sched).boundId = some n0
      ∧ ((callResponse (actRun (actInit n0) sched).pcA
            = some (.active, some n0)
          ∧ (callResponse (actRun (actInit n0) sched).pcB
                = some (.provisioning, none)
            ∨ callResponse (actRun (actInit n0) sched).pcB
                = some (.active, some n0)))
        ∨ (callResponse (actRun (actInit n0) sched).pcB
              = some (.active, some n0)
            ∧ (callResponse (actRun (actInit n0) sched).pcA
                  = some (.provisioning, none)
              ∨ callResponse (actRun (actInit n0) sched).pcA
                  = some (.active, some n0)))))
      ∧ ∀ (status0 : SessionStatus) (count0 : Nat) (bound0 : Option Nat)
          (sched' : List Bool),
          status0 = .active ∨ status0 = .provisioning →
          (actRun ⟨status0, count0, bound0, .atStart, .atStart⟩
              sched').sandboxCount = count0
            ∧ (actRun ⟨status0, count0, bound0, .atStart, .atStart⟩
                sched').sessionStatus = status0
            ∧ (actRun ⟨status0, count0, bound0, .atStart, .atStart⟩
                sched').boundId = bound0 := by
  refine ⟨?_, ?_⟩
  · have hinv := actInv_run n0 (actInit n0) sched
      (Or.inl ⟨rfl, rfl, rfl, rfl, rfl⟩)
    exact actInv_both_done n0 _ hinv h.1 h.2
  · intro status0 count0 bound0 sched' h0
    exact actRun_nonready status0 h0 count0 bound0 .atStart .atStart
      (Or.inl rfl) (Or.inl rfl) sched'

/-- C3, witness: the schedule where A completes alone and B then observes
the active session creates exactly one sandbox. -/
theorem c3_activation_witness :
    (actRun (actInit 0) [true, true, true, false]).sandboxCount = 0 + 1 :=
  (c3_activation 0 [true, true, true, false] (by decide)).1.1

end SandboxEngine
